import Mathlib

/-!
Shallow embedding of the pledge-submission mutation of the crowdfunding
backend (the single exported async function of the source file):
validation of submitted package options against the catalog, user
resolution, the reduced-pledge guard, and the transactional insertion of
the Pledge and PledgeOption rows, with commit/rollback semantics.

Tables are lists of rows; the transaction is a snapshot of the database
threaded through the writes, installed on commit and discarded on
rollback.  Every throw site of the source is one constructor of
`PledgeError`; the JavaScript exception value that such a failure makes
reach the caller is `surfaced`.
-/

namespace Crowdfunding

/-- A catalog PackageOption row (the template of a pledge option). -/
structure PackageOption where
  id : Nat
  packageId : Nat
  minAmount : Int
  maxAmount : Int
  price : Int
  userPrice : Bool
  minUserPrice : Int
  rewardId : Option Nat
  deriving DecidableEq

/-- A caller-submitted pledge option: `{templateId, amount, price}`. -/
structure PledgeOptionInput where
  templateId : Nat
  amount : Int
  price : Int
  deriving DecidableEq

/-- Submitted contact fields `pledge.user`. -/
structure UserInput where
  email : String
  firstName : String
  lastName : String
  birthday : String
  deriving DecidableEq

/-- The submitted pledge: `args.pledge`. A missing `reason` is `none`. -/
structure PledgeInput where
  total : Int
  reason : Option String
  user : UserInput
  options : List PledgeOptionInput
  deriving DecidableEq

/-- A persisted User row. -/
structure User where
  id : Nat
  email : String
  firstName : String
  lastName : String
  birthday : String
  deriving DecidableEq

/-- A persisted Pledge row. -/
structure Pledge where
  id : Nat
  userId : Nat
  packageId : Nat
  total : Int
  donation : Int
  reason : Option String
  status : String
  deriving DecidableEq

/-- A persisted PledgeOption row (the input plus `pledgeId` and an id). -/
structure PledgeOptionRow where
  id : Nat
  pledgeId : Nat
  templateId : Nat
  amount : Int
  price : Int
  deriving DecidableEq

/-- A PaymentSource row: per-user, per-method payment alias binding. -/
structure PaymentSource where
  userId : Nat
  method : String
  pspId : String
  deriving DecidableEq

/-- A Reward row; only its id matters to the reduced-pledge guard. -/
structure Reward where
  id : Nat
  deriving DecidableEq

/-- The relational store.  `nextId` models the id sequence used by
`insertAndGet`. -/
structure DB where
  packageOptions : List PackageOption
  users : List User
  pledges : List Pledge
  pledgeOptions : List PledgeOptionRow
  paymentSources : List PaymentSource
  rewards : List Reward
  nextId : Nat
  deriving DecidableEq

/-- One constructor per throw site of the source function.
`typeError prop` stands for the TypeError raised by reading property
`prop` of `undefined` (for example `packageOptions[0].packageId` on an
empty list). -/
inductive PledgeError where
  | invalidTemplateReference
  | crossPackageSelection
  | amountOutOfRange
  | totalBelowMinimum
  | missingReductionReason
  | identityMismatch
  | reducedPledgeAlreadyUsed
  | typeError (prop : String)
  deriving DecidableEq

/-- The JavaScript exception value a failure path delivers to the caller. -/
inductive Surfaced where
  | errMessage (s : String)
  | referenceError (name : String)
  | typeError (prop : String)
  deriving DecidableEq

/-- What each failure path actually throws, as a function of the
localization function `t`.  All validation throw sites build
`new Error(t(key))` — except the total check: its `logger.error` call
interpolates the undeclared variable `total` in a template literal, so a
ReferenceError is raised there before the intended
`throw new Error(t('api/unexpected'))` line is reached. -/
def surfaced (t : String → String) : PledgeError → Surfaced
  | .invalidTemplateReference => .errMessage (t "api/unexpected")
  | .crossPackageSelection => .errMessage (t "api/unexpected")
  | .amountOutOfRange => .errMessage (t "api/unexpected")
  | .totalBelowMinimum => .referenceError "total"
  | .missingReductionReason => .errMessage (t "api/unexpected")
  | .identityMismatch => .errMessage (t "api/unexpected")
  | .reducedPledgeAlreadyUsed => .errMessage (t "api/membership/reduced/alreadyHas")
  | .typeError p => .typeError p

/-- `!pledge.reason`: true when the reason is absent or the empty string
(both are falsy in JavaScript). -/
def reasonFalsy : Option String → Bool
  | none => true
  | some s => s == ""

/-- The amount guard of the source, kept exactly as JavaScript evaluates
`!(pko.minAmount <= plo.amount <= pko.maxAmount)`: `<=` associates to
the left, so the boolean result of the first comparison is coerced to
`1` or `0` and compared with `maxAmount`. -/
def jsAmountOutOfRange (pko : PackageOption) (amount : Int) : Bool :=
  !(decide ((if pko.minAmount ≤ amount then (1 : Int) else 0) ≤ pko.maxAmount))

/-- The check the surrounding comment of the source (and the spec)
describe: the amount lies outside `[minAmount, maxAmount]`. -/
def specAmountOutOfRange (pko : PackageOption) (amount : Int) : Bool :=
  decide (amount < pko.minAmount ∨ pko.maxAmount < amount)

/-- Fetch the templates of the submitted options and fail when fewer
rows were found than there are submitted options
(`packageOptions.length < pledgeOptions.length`). -/
def checkTemplates (inp : PledgeInput) (db : DB) :
    Except PledgeError (List PackageOption) :=
  let tids := inp.options.map (·.templateId)
  let pkos := db.packageOptions.filter (fun pko => tids.contains pko.id)
  if pkos.length < inp.options.length then .error .invalidTemplateReference
  else .ok pkos

/-- `packageOptions[0].packageId`: a TypeError when no template row was
fetched. -/
def getPackageId : List PackageOption → Except PledgeError Nat
  | [] => .error (.typeError "packageId")
  | pko :: _ => .ok pko.packageId

/-- The body of the `pledgeOptions.forEach` loop: find the option's
template, require the same package, then run the amount guard. -/
def checkOption (packageId : Nat) (pkos : List PackageOption)
    (plo : PledgeOptionInput) : Except PledgeError Unit :=
  match pkos.find? (fun pko => pko.id == plo.templateId) with
  | none => .error (.typeError "packageId")
  | some pko =>
    if packageId ≠ pko.packageId then .error .crossPackageSelection
    else if jsAmountOutOfRange pko plo.amount then .error .amountOutOfRange
    else .ok ()

/-- The `forEach` over the submitted options; the first throw wins. -/
def checkOptions (packageId : Nat) (pkos : List PackageOption) :
    List PledgeOptionInput → Except PledgeError Unit
  | [] => .ok ()
  | plo :: rest =>
    match checkOption packageId pkos plo with
    | .error e => .error e
    | .ok _ => checkOptions packageId pkos rest

/-- The `reduce` computing the user-price sum: left fold, adding
`minUserPrice * amount` for user-priced templates and `price * amount`
otherwise.  A missing template makes the callback read a property of
`undefined`. -/
def minTotalSum (pkos : List PackageOption) (acc : Int) :
    List PledgeOptionInput → Except PledgeError Int
  | [] => .ok acc
  | plo :: rest =>
    match pkos.find? (fun pko => pko.id == plo.templateId) with
    | none => .error (.typeError "userPrice")
    | some pko =>
      minTotalSum pkos
        (acc + (if pko.userPrice then pko.minUserPrice * plo.amount
                else pko.price * plo.amount)) rest

/-- `minTotal = Math.max(reduce(...), 100)`. -/
def minTotalOf (pkos : List PackageOption) (plos : List PledgeOptionInput) :
    Except PledgeError Int :=
  match minTotalSum pkos 0 plos with
  | .error e => .error e
  | .ok s => .ok (max s 100)

/-- The `reduce` computing the regular sum `price * amount`. -/
def regularTotalSum (pkos : List PackageOption) (acc : Int) :
    List PledgeOptionInput → Except PledgeError Int
  | [] => .ok acc
  | plo :: rest =>
    match pkos.find? (fun pko => pko.id == plo.templateId) with
    | none => .error (.typeError "price")
    | some pko => regularTotalSum pkos (acc + pko.price * plo.amount) rest

/-- `regularTotal = Math.max(reduce(...), 100)`. -/
def regularTotalOf (pkos : List PackageOption) (plos : List PledgeOptionInput) :
    Except PledgeError Int :=
  match regularTotalSum pkos 0 plos with
  | .error e => .error e
  | .ok s => .ok (max s 100)

/-- Outcome of the user-resolution block: the early `emailVerify` return,
or the acting user together with a possibly loaded payment alias and the
transaction state (a user row may just have been inserted). -/
inductive UserOutcome where
  | emailVerify
  | resolved (user : User) (pfAliasId : Option String) (tx : DB)
  deriving DecidableEq

/-- The user block of the source.  With a session user, the emails must
match and a stored POSTFINANCECARD alias is looked up; without one, the
user is loaded by email (short-circuiting to `emailVerify` when that
user already has pledges) or freshly inserted. -/
def resolveUser (session : Option User) (inp : PledgeInput) (tx : DB) :
    Except PledgeError UserOutcome :=
  match session with
  | some su =>
    if su.email ≠ inp.user.email then .error .identityMismatch
    else
      let alias? := (tx.paymentSources.find?
        (fun ps => ps.userId == su.id && ps.method == "POSTFINANCECARD")).map
        (·.pspId)
      .ok (.resolved su alias? tx)
  | none =>
    match tx.users.find? (fun u => u.email == inp.user.email) with
    | some u =>
      if (tx.pledges.filter (fun p => p.userId == u.id)).length ≠ 0 then
        .ok .emailVerify
      else .ok (.resolved u none tx)
    | none =>
      let newUser : User :=
        ⟨tx.nextId, inp.user.email, inp.user.firstName, inp.user.lastName,
          inp.user.birthday⟩
      .ok (.resolved newUser none
        { tx with users := tx.users ++ [newUser], nextId := tx.nextId + 1 })

/-- The profile sync: when the stored names differ from the submission,
`updateAndGetOne` rewrites the user row and the returned row becomes the
acting user (reading it when no row matched is a TypeError later on). -/
def syncUserNames (inp : PledgeInput) (user : User) (tx : DB) :
    Except PledgeError (User × DB) :=
  if user.firstName ≠ inp.user.firstName ∨ user.lastName ≠ inp.user.lastName then
    let users2 := tx.users.map (fun u =>
      if u.id == user.id then
        { u with firstName := inp.user.firstName, lastName := inp.user.lastName }
      else u)
    match users2.find? (fun u => u.id == user.id) with
    | none => .error (.typeError "id")
    | some u2 => .ok (u2, { tx with users := users2 })
  else .ok (user, tx)

/-- `if(!pfAliasId) pfAliasId = uuid()`: a missing or falsy (empty)
loaded alias is replaced by the freshly generated one. -/
def resolveAlias (fresh : String) : Option String → String
  | none => fresh
  | some s => if s == "" then fresh else s

/-- The rewards transitively reachable from a user's pledges:
pledges → pledgeOptions → packageOptions → rewardIds → rewards.  The
final rewards lookup runs on `pgdb` outside the transaction, hence the
separate `db` argument. -/
def userRewards (userId : Nat) (tx db : DB) : List Reward :=
  let pledges := tx.pledges.filter (fun p => p.userId == userId)
  let plos := tx.pledgeOptions.filter
    (fun po => (pledges.map (·.id)).contains po.pledgeId)
  let pkos := tx.packageOptions.filter
    (fun pko => (plos.map (·.templateId)).contains pko.id)
  db.rewards.filter (fun r => (pkos.filterMap (·.rewardId)).contains r.id)

/-- The reduced-pledge guard: only for a negative donation and a user
with at least one existing pledge; fails when any reward is reachable. -/
def reducedGuard (donation : Int) (userId : Nat) (tx db : DB) :
    Except PledgeError Unit :=
  if donation < 0 ∧ (tx.pledges.filter (fun p => p.userId == userId)).length ≠ 0 then
    if (userRewards userId tx db).length ≠ 0 then
      .error .reducedPledgeAlreadyUsed
    else .ok ()
  else .ok ()

/-- `pledges.insertAndGet` of the new DRAFT pledge. -/
def insertPledge (userId packageId : Nat) (total donation : Int)
    (reason : Option String) (tx : DB) : Pledge × DB :=
  let p : Pledge := ⟨tx.nextId, userId, packageId, total, donation, reason, "DRAFT"⟩
  (p, { tx with pledges := tx.pledges ++ [p], nextId := tx.nextId + 1 })

/-- `pledgeOptions.insertAndGet` of each submitted option, tagged with
the new pledge's id. -/
def insertPledgeOptions (pledgeId : Nat) (tx : DB) :
    List PledgeOptionInput → DB
  | [] => tx
  | plo :: rest =>
    insertPledgeOptions pledgeId
      { tx with
        pledgeOptions := tx.pledgeOptions ++
          [⟨tx.nextId, pledgeId, plo.templateId, plo.amount, plo.price⟩],
        nextId := tx.nextId + 1 } rest

/-- What the body of the `try` block produces when it does not throw:
the early `emailVerify` return, or the data of the committed pledge
together with the transaction state to be committed. -/
inductive BodyOut where
  | emailVerify
  | committed (pledgeId userId : Nat) (total : Int) (aliasId : String) (tx : DB)
  deriving DecidableEq

/-- The part of the `try` block after the minimum-total check, in
source order: regular total and donation, the reason check, user
resolution (with its early `emailVerify` return), profile sync, alias
fallback, the reduced-pledge guard, and the pledge and option inserts. -/
def afterTotal (session : Option User) (fresh : String) (inp : PledgeInput)
    (db : DB) (pkos : List PackageOption) (packageId : Nat) :
    Except PledgeError BodyOut :=
  match regularTotalOf pkos inp.options with
  | .error e => .error e
  | .ok regularTotal =>
    let donation := inp.total - regularTotal
    if donation < 0 ∧ reasonFalsy inp.reason = true then
      .error .missingReductionReason
    else
      match resolveUser session inp db with
      | .error e => .error e
      | .ok .emailVerify => .ok .emailVerify
      | .ok (.resolved user alias? tx) =>
        match syncUserNames inp user tx with
        | .error e => .error e
        | .ok (user2, tx2) =>
          let aliasId := resolveAlias fresh alias?
          match reducedGuard donation user2.id tx2 db with
          | .error e => .error e
          | .ok _ =>
            let pt := insertPledge user2.id packageId inp.total
              donation inp.reason tx2
            let tx3 := insertPledgeOptions pt.1.id pt.2 inp.options
            .ok (.committed pt.1.id user2.id inp.total aliasId tx3)

/-- The `try` block of the source, step for step in source order:
template fetch and count check, packageId of the first row, the per
option package/amount checks, the minimum-total check, then
`afterTotal`. -/
def submitBody (session : Option User) (fresh : String) (inp : PledgeInput)
    (db : DB) : Except PledgeError BodyOut :=
  match checkTemplates inp db with
  | .error e => .error e
  | .ok pkos =>
    match getPackageId pkos with
    | .error e => .error e
    | .ok packageId =>
      match checkOptions packageId pkos inp.options with
      | .error e => .error e
      | .ok _ =>
        match minTotalOf pkos inp.options with
        | .error e => .error e
        | .ok minTotal =>
          if inp.total < minTotal then .error .totalBelowMinimum
          else afterTotal session fresh inp db pkos packageId

/-- The minimum total as the spec states it:
`max(100, Σ amount_i × (userPrice_i ? minUserPrice_i : price_i))`, each
option priced by its template. -/
def specMinTotal (pkos : List PackageOption) (plos : List PledgeOptionInput) :
    Int :=
  max 100 ((plos.map (fun plo =>
    ((pkos.find? (fun pko => pko.id == plo.templateId)).map (fun pko =>
      if pko.userPrice then pko.minUserPrice * plo.amount
      else pko.price * plo.amount)).getD 0)).sum)

/-- The regular total as the spec states it:
`max(100, Σ amount_i × price_i)` with the template's price. -/
def specRegularTotal (pkos : List PackageOption)
    (plos : List PledgeOptionInput) : Int :=
  max 100 ((plos.map (fun plo =>
    ((pkos.find? (fun pko => pko.id == plo.templateId)).map (fun pko =>
      pko.price * plo.amount)).getD 0)).sum)

/-- The value returned to the caller. -/
inductive SubmitResult where
  | success (pledgeId userId : Nat) (pfSHA : String) (pfAliasId : String)
  | emailVerify
  | failure (e : PledgeError)
  deriving DecidableEq

def SubmitResult.isSuccess : SubmitResult → Bool
  | .success _ _ _ _ => true
  | _ => false

def SubmitResult.isFailure : SubmitResult → Bool
  | .failure _ => true
  | _ => false

/-- The whole exported function: `transactionBegin`, the body, then
either `transactionCommit` and the postfinance signature on success, the
early `emailVerify` return without a commit, or — in the `catch` —
`transactionRollback` (discarding the transaction state) and the rethrow
of the originating error.  Returns the result together with the
database visible afterwards.  `sha` is the opaque postfinanceSHA
function of `(orderId, amount, alias, userId)`; `fresh` the generated
uuid. -/
def submitPledge (sha : Nat → Int → String → Nat → String)
    (session : Option User) (fresh : String) (inp : PledgeInput) (db : DB) :
    SubmitResult × DB :=
  match submitBody session fresh inp db with
  | .error e => (.failure e, db)
  | .ok .emailVerify => (.emailVerify, db)
  | .ok (.committed pid uid total aliasId tx) =>
    (.success pid uid (sha pid total aliasId uid) aliasId, tx)

/-! ### Concrete fixtures used to evaluate the model -/

/-- A trivial concrete signature function to instantiate the opaque
postfinanceSHA parameter in evaluations. -/
def sha0 : Nat → Int → String → Nat → String := fun _ _ _ _ => ""

/-- A template without the userPrice flag: amounts 1..5, price 1000. -/
def tplA : PackageOption := ⟨1, 1, 1, 5, 1000, false, 0, none⟩

/-- A user-priced template: amounts 1..5, price 1000, minUserPrice 200,
linked to reward 5. -/
def tplU : PackageOption := ⟨1, 1, 1, 5, 1000, true, 200, some 5⟩

/-- Like `tplU` but without a linked reward. -/
def tplU0 : PackageOption := ⟨1, 1, 1, 5, 1000, true, 200, none⟩

/-- A catalog-only database holding `tplA`. -/
def db1 : DB := ⟨[tplA], [], [], [], [], [], 10⟩

/-- A stored user. -/
def userA : User := ⟨2, "a@b.c", "F", "L", "1990-01-01"⟩

/-- The same contact data as submitted fields. -/
def userAInput : UserInput := ⟨"a@b.c", "F", "L", "1990-01-01"⟩

/-- An existing pledge of `userA`. -/
def oldPledge : Pledge := ⟨3, 2, 1, 1000, 0, none, "PAID"⟩

/-- The persisted option row of `oldPledge`, referencing template 1. -/
def oldPledgeOption : PledgeOptionRow := ⟨4, 3, 1, 1, 1000⟩

/-- Database where `userA` already redeemed a reward-bearing pledge:
their pledge's option references `tplU`, which carries reward 5. -/
def dbRewarded : DB :=
  ⟨[tplU], [userA], [oldPledge], [oldPledgeOption], [], [⟨5⟩], 10⟩

/-- Like `dbRewarded` but the catalog template carries no reward, so the
existing pledge has no reward linkage. -/
def dbUnrewarded : DB :=
  ⟨[tplU0], [userA], [oldPledge], [oldPledgeOption], [], [⟨5⟩], 10⟩

/-- Database with `userA` (who has a pledge) but viewed by an anonymous
submission: triggers the email-verification short circuit. -/
def dbEmail : DB := ⟨[tplA], [userA], [oldPledge], [oldPledgeOption], [], [], 10⟩

/-- Anonymous submission with amount 6 on template `tplA` whose
maxAmount is 5. -/
def inpOverMax : PledgeInput := ⟨6000, none, userAInput, [⟨1, 6, 1000⟩]⟩

/-- Submission naming template 1 twice; both amounts are in range and
template 1 exists in the catalog. -/
def inpDup : PledgeInput := ⟨4000, none, userAInput, [⟨1, 3, 1000⟩, ⟨1, 1, 1000⟩]⟩

/-- Submission with total 500 below the minimum total 1000 of its single
option. -/
def inpLow : PledgeInput := ⟨500, none, userAInput, [⟨1, 1, 1000⟩]⟩

/-- Reduced (donation-negative) submission with a reason: total 500
against regular total 1000, allowed down to minUserPrice 200. -/
def inpReduced : PledgeInput := ⟨500, some "student", userAInput, [⟨1, 1, 1000⟩]⟩

/-- Reduced (donation-negative) submission without a reason. -/
def inpReducedNoReason : PledgeInput := ⟨500, none, userAInput, [⟨1, 1, 1000⟩]⟩

/-- A valid full-price submission: one option, amount 1, total 1000. -/
def inpFull : PledgeInput := ⟨1000, none, userAInput, [⟨1, 1, 1000⟩]⟩

/-- A submission with an empty options list. -/
def inpEmpty : PledgeInput := ⟨0, none, userAInput, []⟩

/-! ### Which errors each stage can produce -/

theorem checkTemplates_error {inp : PledgeInput} {db : DB} {e : PledgeError}
    (h : checkTemplates inp db = .error e) : e = .invalidTemplateReference := by
  simp only [checkTemplates] at h
  split at h
  · injection h with h2
    exact h2.symm
  · simp at h

theorem getPackageId_error {pkos : List PackageOption} {e : PledgeError}
    (h : getPackageId pkos = .error e) : ∃ s, e = .typeError s := by
  cases pkos with
  | nil =>
    simp only [getPackageId] at h
    injection h with h2
    exact ⟨"packageId", h2.symm⟩
  | cons a l => simp [getPackageId] at h

theorem checkOption_error {packageId : Nat} {pkos : List PackageOption}
    {plo : PledgeOptionInput} {e : PledgeError}
    (h : checkOption packageId pkos plo = .error e) :
    e = .crossPackageSelection ∨ e = .amountOutOfRange ∨ ∃ s, e = .typeError s := by
  unfold checkOption at h
  split at h
  · injection h with h2
    exact Or.inr (Or.inr ⟨"packageId", h2.symm⟩)
  · split at h
    · injection h with h2
      exact Or.inl h2.symm
    · split at h
      · injection h with h2
        exact Or.inr (Or.inl h2.symm)
      · simp at h

theorem checkOptions_error {packageId : Nat} {pkos : List PackageOption}
    {plos : List PledgeOptionInput} {e : PledgeError}
    (h : checkOptions packageId pkos plos = .error e) :
    e = .crossPackageSelection ∨ e = .amountOutOfRange ∨ ∃ s, e = .typeError s := by
  induction plos with
  | nil => simp [checkOptions] at h
  | cons plo rest ih =>
    unfold checkOptions at h
    split at h
    · next e2 heq =>
      injection h with h2
      subst h2
      exact checkOption_error heq
    · exact ih h

theorem minTotalSum_error {pkos : List PackageOption} {acc : Int}
    {plos : List PledgeOptionInput} {e : PledgeError}
    (h : minTotalSum pkos acc plos = .error e) : ∃ s, e = .typeError s := by
  induction plos generalizing acc with
  | nil => simp [minTotalSum] at h
  | cons plo rest ih =>
    unfold minTotalSum at h
    split at h
    · injection h with h2
      exact ⟨"userPrice", h2.symm⟩
    · exact ih h

theorem minTotalOf_error {pkos : List PackageOption}
    {plos : List PledgeOptionInput} {e : PledgeError}
    (h : minTotalOf pkos plos = .error e) : ∃ s, e = .typeError s := by
  unfold minTotalOf at h
  split at h
  · next e2 heq =>
    injection h with h2
    subst h2
    exact minTotalSum_error heq
  · simp at h

theorem regularTotalSum_error {pkos : List PackageOption} {acc : Int}
    {plos : List PledgeOptionInput} {e : PledgeError}
    (h : regularTotalSum pkos acc plos = .error e) : ∃ s, e = .typeError s := by
  induction plos generalizing acc with
  | nil => simp [regularTotalSum] at h
  | cons plo rest ih =>
    unfold regularTotalSum at h
    split at h
    · injection h with h2
      exact ⟨"price", h2.symm⟩
    · exact ih h

theorem regularTotalOf_error {pkos : List PackageOption}
    {plos : List PledgeOptionInput} {e : PledgeError}
    (h : regularTotalOf pkos plos = .error e) : ∃ s, e = .typeError s := by
  unfold regularTotalOf at h
  split at h
  · next e2 heq =>
    injection h with h2
    subst h2
    exact regularTotalSum_error heq
  · simp at h

theorem resolveUser_error {session : Option User} {inp : PledgeInput} {tx : DB}
    {e : PledgeError} (h : resolveUser session inp tx = .error e) :
    e = .identityMismatch := by
  cases session with
  | some su =>
    simp only [resolveUser] at h
    split at h
    · injection h with h2
      exact h2.symm
    · simp at h
  | none =>
    simp only [resolveUser] at h
    split at h
    · split at h <;> simp at h
    · simp at h

theorem syncUserNames_error {inp : PledgeInput} {user : User} {tx : DB}
    {e : PledgeError} (h : syncUserNames inp user tx = .error e) :
    ∃ s, e = .typeError s := by
  simp only [syncUserNames] at h
  split at h
  · split at h
    · injection h with h2
      exact ⟨"id", h2.symm⟩
    · simp at h
  · simp at h

theorem reducedGuard_error {donation : Int} {userId : Nat} {tx db : DB}
    {e : PledgeError} (h : reducedGuard donation userId tx db = .error e) :
    e = .reducedPledgeAlreadyUsed := by
  unfold reducedGuard at h
  split at h
  · split at h
    · injection h with h2
      exact h2.symm
    · simp at h
  · simp at h

theorem afterTotal_error {session : Option User} {fresh : String}
    {inp : PledgeInput} {db : DB} {pkos : List PackageOption} {packageId : Nat}
    {e : PledgeError}
    (h : afterTotal session fresh inp db pkos packageId = .error e) :
    e = .missingReductionReason ∨ e = .identityMismatch ∨
      e = .reducedPledgeAlreadyUsed ∨ ∃ s, e = .typeError s := by
  unfold afterTotal at h
  dsimp only at h
  split at h
  · next e2 heq =>
    injection h with h2
    subst h2
    exact Or.inr (Or.inr (Or.inr (regularTotalOf_error heq)))
  · split at h
    · injection h with h2
      exact Or.inl h2.symm
    · split at h
      · next e2 heq =>
        injection h with h2
        subst h2
        exact Or.inr (Or.inl (resolveUser_error heq))
      · simp at h
      · split at h
        · next e2 heq =>
          injection h with h2
          subst h2
          exact Or.inr (Or.inr (Or.inr (syncUserNames_error heq)))
        · split at h
          · next e2 heq =>
            injection h with h2
            subst h2
            exact Or.inr (Or.inr (Or.inl (reducedGuard_error heq)))
          · simp at h

/-! ### Values of the total computations when they succeed -/

theorem minTotalSum_ok {pkos : List PackageOption} {acc : Int}
    {plos : List PledgeOptionInput} {s : Int}
    (h : minTotalSum pkos acc plos = .ok s) :
    s = acc + (plos.map (fun plo =>
      ((pkos.find? (fun pko => pko.id == plo.templateId)).map (fun pko =>
        if pko.userPrice then pko.minUserPrice * plo.amount
        else pko.price * plo.amount)).getD 0)).sum := by
  induction plos generalizing acc with
  | nil =>
    simp only [minTotalSum] at h
    injection h with h2
    simp [h2.symm]
  | cons plo rest ih =>
    unfold minTotalSum at h
    split at h
    · simp at h
    · next pko heq =>
      rw [ih h]
      simp only [List.map_cons, List.sum_cons, heq, Option.map_some',
        Option.getD_some]
      ring

theorem regularTotalSum_ok {pkos : List PackageOption} {acc : Int}
    {plos : List PledgeOptionInput} {s : Int}
    (h : regularTotalSum pkos acc plos = .ok s) :
    s = acc + (plos.map (fun plo =>
      ((pkos.find? (fun pko => pko.id == plo.templateId)).map (fun pko =>
        pko.price * plo.amount)).getD 0)).sum := by
  induction plos generalizing acc with
  | nil =>
    simp only [regularTotalSum] at h
    injection h with h2
    simp [h2.symm]
  | cons plo rest ih =>
    unfold regularTotalSum at h
    split at h
    · simp at h
    · next pko heq =>
      rw [ih h]
      simp only [List.map_cons, List.sum_cons, heq, Option.map_some',
        Option.getD_some]
      ring

/-- When the per-option loop succeeded, every option's template is found. -/
theorem checkOptions_ok_find {packageId : Nat} {pkos : List PackageOption}
    {plos : List PledgeOptionInput}
    (h : checkOptions packageId pkos plos = .ok ()) :
    ∀ plo ∈ plos, ∃ pko,
      pkos.find? (fun pko => pko.id == plo.templateId) = some pko := by
  induction plos with
  | nil => simp
  | cons plo rest ih =>
    unfold checkOptions at h
    split at h
    · simp at h
    · next heq =>
      intro q hq
      rcases List.mem_cons.mp hq with hq | hq
      · subst hq
        unfold checkOption at heq
        split at heq
        · simp at heq
        · next pko hfind => exact ⟨pko, hfind⟩
      · exact ih h q hq

theorem minTotalSum_isOk {pkos : List PackageOption} {acc : Int}
    {plos : List PledgeOptionInput}
    (hf : ∀ plo ∈ plos, ∃ pko,
      pkos.find? (fun pko => pko.id == plo.templateId) = some pko) :
    ∃ s, minTotalSum pkos acc plos = .ok s := by
  induction plos generalizing acc with
  | nil => exact ⟨acc, rfl⟩
  | cons plo rest ih =>
    obtain ⟨pko, hpko⟩ := hf plo (List.mem_cons_self plo rest)
    unfold minTotalSum
    rw [hpko]
    exact ih (fun q hq => hf q (List.mem_cons_of_mem plo hq))

theorem regularTotalSum_isOk {pkos : List PackageOption} {acc : Int}
    {plos : List PledgeOptionInput}
    (hf : ∀ plo ∈ plos, ∃ pko,
      pkos.find? (fun pko => pko.id == plo.templateId) = some pko) :
    ∃ s, regularTotalSum pkos acc plos = .ok s := by
  induction plos generalizing acc with
  | nil => exact ⟨acc, rfl⟩
  | cons plo rest ih =>
    obtain ⟨pko, hpko⟩ := hf plo (List.mem_cons_self plo rest)
    unfold regularTotalSum
    rw [hpko]
    exact ih (fun q hq => hf q (List.mem_cons_of_mem plo hq))

/-- After a successful option loop, the minimum total computes and
equals the spec formula. -/
theorem minTotalOf_eq_spec {packageId : Nat} {pkos : List PackageOption}
    {plos : List PledgeOptionInput}
    (h : checkOptions packageId pkos plos = .ok ()) :
    minTotalOf pkos plos = .ok (specMinTotal pkos plos) := by
  obtain ⟨s, hs⟩ := @minTotalSum_isOk pkos 0 plos (checkOptions_ok_find h)
  have hv := minTotalSum_ok hs
  unfold minTotalOf
  rw [hs]
  unfold specMinTotal
  rw [hv]
  simp [max_comm]

/-- After a successful option loop, the regular total computes and
equals the spec formula. -/
theorem regularTotalOf_eq_spec {packageId : Nat} {pkos : List PackageOption}
    {plos : List PledgeOptionInput}
    (h : checkOptions packageId pkos plos = .ok ()) :
    regularTotalOf pkos plos = .ok (specRegularTotal pkos plos) := by
  obtain ⟨s, hs⟩ := @regularTotalSum_isOk pkos 0 plos (checkOptions_ok_find h)
  have hv := regularTotalSum_ok hs
  unfold regularTotalOf
  rw [hs]
  unfold specRegularTotal
  rw [hv]
  simp [max_comm]

/-- Inserting the option rows never touches the pledges table. -/
theorem insertPledgeOptions_pledges (pledgeId : Nat) (tx : DB)
    (plos : List PledgeOptionInput) :
    (insertPledgeOptions pledgeId tx plos).pledges = tx.pledges := by
  induction plos generalizing tx with
  | nil => rfl
  | cons plo rest ih => exact ih _

/-- Shape of a committed run: the checks passed, the regular total
computed to some `rt`, and the transaction holds a DRAFT pledge row
with the submitted total and `donation = total − rt`. -/
theorem submitBody_committed {session : Option User} {fresh : String}
    {inp : PledgeInput} {db : DB} {pid uid : Nat} {total2 : Int}
    {al : String} {tx : DB}
    (h : submitBody session fresh inp db =
      .ok (.committed pid uid total2 al tx)) :
    ∃ pkos packageId, checkTemplates inp db = .ok pkos ∧
      checkOptions packageId pkos inp.options = .ok () ∧
      ∃ rt, regularTotalOf pkos inp.options = .ok rt ∧
      ∃ p : Pledge, p ∈ tx.pledges ∧ p.id = pid ∧ p.userId = uid ∧
        p.total = inp.total ∧ p.donation = inp.total - rt ∧
        p.reason = inp.reason ∧ p.status = "DRAFT" := by
  unfold submitBody at h
  split at h
  · simp at h
  · next pkos hct =>
    split at h
    · simp at h
    · next packageId hpid =>
      split at h
      · simp at h
      · next hco =>
        split at h
        · simp at h
        · next minTotal hmt =>
          split at h
          · simp at h
          · unfold afterTotal at h
            split at h
            · simp at h
            · next rt hrt =>
              dsimp only at h
              split at h
              · simp at h
              · split at h
                · simp at h
                · simp at h
                · next user alias2 tx1 hru =>
                  split at h
                  · simp at h
                  · next user2 tx2 hsy =>
                    split at h
                    · simp at h
                    · injection h with h2
                      injection h2 with e1 e2 e3 e4 e5
                      refine ⟨pkos, packageId, hct, hco, rt, hrt,
                        (insertPledge user2.id packageId inp.total
                          (inp.total - rt) inp.reason tx2).1,
                        ?_, e1, e2, rfl, rfl, rfl, rfl⟩
                      rw [← e5, insertPledgeOptions_pledges]
                      exact List.mem_append_right _ (List.mem_singleton_self _)

/-! ### Claims -/

/-- C1 (claim refuted by the code): the source's amount guard evaluates
the JavaScript chain `!(pko.minAmount <= plo.amount <= pko.maxAmount)`
as `!((minAmount <= amount) <= maxAmount)` with the boolean coerced to
0 or 1, so on template `tplA` (bounds 1..5) a submitted amount of 6 is
strictly above `maxAmount` yet passes the guard, and the whole
submission commits successfully instead of failing with
AmountOutOfRange. -/
theorem c1_amount_guard_accepts_above_max :
    specAmountOutOfRange tplA 6 = true ∧
    jsAmountOutOfRange tplA 6 = false ∧
    (submitPledge sha0 none "al" inpOverMax db1).1 =
      .success 11 10 "" "al" :=
  ⟨rfl, rfl, rfl⟩

/-- C2: whenever any step of the body fails before the commit, the
transaction is rolled back: the caller receives exactly the originating
error and the visible database is the one from before the submission,
so no User, Pledge or PledgeOption write survives. -/
theorem c2_rollback_on_failure (sha : Nat → Int → String → Nat → String)
    (session : Option User) (fresh : String) (inp : PledgeInput) (db : DB)
    (e : PledgeError) (h : submitBody session fresh inp db = .error e) :
    submitPledge sha session fresh inp db = (.failure e, db) := by
  unfold submitPledge
  rw [h]

/-- Witness for C2: the concrete empty-options submission fails, and the
run returns the originating error with the database unchanged. -/
theorem c2_rollback_on_failure_witness :
    submitBody none "al" inpEmpty db1 = .error (.typeError "packageId") ∧
    submitPledge sha0 none "al" inpEmpty db1 =
      (.failure (.typeError "packageId"), db1) :=
  ⟨rfl, c2_rollback_on_failure sha0 none "al" inpEmpty db1 _ rfl⟩

/-- C4 counterexample: both options of `inpDup` reference template 1,
which exists in the catalog — one distinct id requested, one template
found, so the claim says the check must pass — yet the submission fails
with InvalidTemplateReference, because the source compares the found
count with the number of submitted options. -/
theorem c4_counterexample :
    (inpDup.options.map (·.templateId)).dedup = [1] ∧
    (db1.packageOptions.filter
      (fun pko => (inpDup.options.map (·.templateId)).contains pko.id)).length = 1 ∧
    (submitPledge sha0 none "al" inpDup db1).1 =
      .failure .invalidTemplateReference := by
  refine ⟨by decide, rfl, rfl⟩

/-- C4 (amended): the submission fails with InvalidTemplateReference
exactly when the catalog holds fewer templates matching the submitted
template ids than the number of submitted options (not the number of
distinct ids). -/
theorem c4_template_count_check (session : Option User) (fresh : String)
    (inp : PledgeInput) (db : DB) :
    submitBody session fresh inp db = .error .invalidTemplateReference ↔
      (db.packageOptions.filter
        (fun pko => (inp.options.map (·.templateId)).contains pko.id)).length <
        inp.options.length := by
  constructor
  · intro h
    unfold submitBody at h
    split at h
    · next e2 heq =>
      injection h with h2
      subst h2
      simp only [checkTemplates] at heq
      split at heq
      · assumption
      · simp at heq
    · split at h
      · next e2 heq =>
        injection h with h2
        obtain ⟨s, hs⟩ := getPackageId_error heq
        rw [h2] at hs
        simp at hs
      · split at h
        · next e2 heq =>
          injection h with h2
          rcases checkOptions_error heq with h3 | h3 | ⟨s, h3⟩ <;>
            rw [h2] at h3 <;> simp at h3
        · split at h
          · next e2 heq =>
            injection h with h2
            obtain ⟨s, hs⟩ := minTotalOf_error heq
            rw [h2] at hs
            simp at hs
          · split at h
            · injection h with h2
              simp at h2
            · rcases afterTotal_error h with h3 | h3 | h3 | ⟨s, h3⟩ <;>
                simp at h3
  · intro hlt
    have hct : checkTemplates inp db = .error .invalidTemplateReference := by
      unfold checkTemplates
      dsimp only
      rw [if_pos hlt]
    unfold submitBody
    rw [hct]

/-- C3: for a submission that passes the template and amount checks,
the computed minimum total is
`max(100, Σ amount_i × (userPrice_i ? minUserPrice_i : price_i))`, and
the body fails at the total check exactly when the submitted total is
strictly below that minimum (boundary: an equal total passes). -/
theorem c3_minTotal_check (session : Option User) (fresh : String)
    (inp : PledgeInput) (db : DB) (pkos : List PackageOption) (packageId : Nat)
    (h1 : checkTemplates inp db = .ok pkos)
    (h2 : getPackageId pkos = .ok packageId)
    (h3 : checkOptions packageId pkos inp.options = .ok ()) :
    minTotalOf pkos inp.options = .ok (specMinTotal pkos inp.options) ∧
    (submitBody session fresh inp db = .error .totalBelowMinimum ↔
      inp.total < specMinTotal pkos inp.options) := by
  have hmin := minTotalOf_eq_spec h3
  refine ⟨hmin, ?_, ?_⟩
  · intro h
    unfold submitBody at h
    rw [h1] at h
    dsimp only at h
    rw [h2] at h
    dsimp only at h
    rw [h3] at h
    dsimp only at h
    rw [hmin] at h
    dsimp only at h
    by_cases hc : inp.total < specMinTotal pkos inp.options
    · exact hc
    · rw [if_neg hc] at h
      rcases afterTotal_error h with h4 | h4 | h4 | ⟨s, h4⟩ <;> simp at h4
  · intro hlt
    unfold submitBody
    rw [h1]
    dsimp only
    rw [h2]
    dsimp only
    rw [h3]
    dsimp only
    rw [hmin]
    dsimp only
    rw [if_pos hlt]

/-- Witness for C3 at the concrete submission `inpLow` (total 500
against minimum total 1000). -/
theorem c3_minTotal_check_witness :
    checkTemplates inpLow db1 = .ok [tplA] ∧
    getPackageId [tplA] = .ok 1 ∧
    checkOptions 1 [tplA] inpLow.options = .ok () ∧
    (minTotalOf [tplA] inpLow.options = .ok (specMinTotal [tplA] inpLow.options) ∧
      (submitBody none "al" inpLow db1 = .error .totalBelowMinimum ↔
        inpLow.total < specMinTotal [tplA] inpLow.options)) :=
  ⟨rfl, rfl, rfl, c3_minTotal_check none "al" inpLow db1 [tplA] 1 rfl rfl rfl⟩

/-- C8: when the computed donation is negative and the submitted reason
is absent or empty, the submission fails with MissingReductionReason
and no Pledge row is committed (database unchanged); when the reason is
non-empty and no reward is reachable from the resolved acting user's
existing pledges, both the reason check and the reduced-pledge guard
pass and the submission commits successfully. -/
theorem c8_reduction_reason (session : Option User) (fresh : String)
    (inp : PledgeInput) (db : DB) (pkos : List PackageOption) (packageId : Nat)
    (h1 : checkTemplates inp db = .ok pkos)
    (h2 : getPackageId pkos = .ok packageId)
    (h3 : checkOptions packageId pkos inp.options = .ok ())
    (h4 : ¬ inp.total < specMinTotal pkos inp.options) :
    (inp.total - specRegularTotal pkos inp.options < 0 →
      reasonFalsy inp.reason = true →
      ∀ sha, submitPledge sha session fresh inp db =
        (.failure .missingReductionReason, db)) ∧
    (reasonFalsy inp.reason = false →
      ∀ (u : User) (alias2 : Option String) (tx : DB) (user2 : User) (tx2 : DB),
        resolveUser session inp db = .ok (.resolved u alias2 tx) →
        syncUserNames inp u tx = .ok (user2, tx2) →
        userRewards user2.id tx2 db = [] →
        ∀ sha, (submitPledge sha session fresh inp db).1.isSuccess = true) := by
  constructor
  · intro hneg hfal sha
    have hb : submitBody session fresh inp db =
        .error .missingReductionReason := by
      unfold submitBody
      rw [h1]
      dsimp only
      rw [h2]
      dsimp only
      rw [h3]
      dsimp only
      rw [minTotalOf_eq_spec h3]
      dsimp only
      rw [if_neg h4]
      unfold afterTotal
      rw [regularTotalOf_eq_spec h3]
      dsimp only
      rw [if_pos ⟨hneg, hfal⟩]
    unfold submitPledge
    rw [hb]
  · intro hfal u alias2 tx user2 tx2 h6 h7 hrw sha
    have h5 : ¬ (inp.total - specRegularTotal pkos inp.options < 0 ∧
        reasonFalsy inp.reason = true) := by
      rintro ⟨-, hc⟩
      rw [hfal] at hc
      cases hc
    have hg : reducedGuard (inp.total - specRegularTotal pkos inp.options)
        user2.id tx2 db = .ok () := by
      unfold reducedGuard
      split
      · rw [if_neg (by simp [hrw])]
      · rfl
    unfold submitPledge submitBody
    rw [h1]
    dsimp only
    rw [h2]
    dsimp only
    rw [h3]
    dsimp only
    rw [minTotalOf_eq_spec h3]
    dsimp only
    rw [if_neg h4]
    unfold afterTotal
    rw [regularTotalOf_eq_spec h3]
    dsimp only
    rw [if_neg h5]
    rw [h6]
    dsimp only
    rw [h7]
    dsimp only
    rw [hg]
    rfl

/-- Witness for C8: against `dbUnrewarded`, the reduced submission
without a reason fails with MissingReductionReason, and the one with a
reason commits successfully. -/
theorem c8_reduction_reason_witness :
    (inpReducedNoReason.total -
        specRegularTotal [tplU0] inpReducedNoReason.options < 0 ∧
      reasonFalsy inpReducedNoReason.reason = true ∧
      submitPledge sha0 (some userA) "al" inpReducedNoReason dbUnrewarded =
        (.failure .missingReductionReason, dbUnrewarded)) ∧
    (inpReduced.total - specRegularTotal [tplU0] inpReduced.options < 0 ∧
      reasonFalsy inpReduced.reason = false ∧
      userRewards userA.id dbUnrewarded dbUnrewarded = [] ∧
      (submitPledge sha0 (some userA) "al" inpReduced dbUnrewarded).1.isSuccess =
        true) := by
  constructor
  · refine ⟨by decide, by decide, ?_⟩
    exact (c8_reduction_reason (some userA) "al" inpReducedNoReason
      dbUnrewarded [tplU0] 1 rfl rfl rfl (by decide)).1 (by decide)
      (by decide) sha0
  · refine ⟨by decide, by decide, by decide, ?_⟩
    exact (c8_reduction_reason (some userA) "al" inpReduced dbUnrewarded
      [tplU0] 1 rfl rfl rfl (by decide)).2 (by decide) userA none
      dbUnrewarded userA dbUnrewarded rfl rfl (by decide) sha0

/-- C9 (claim refuted by the code): the source intends to surface every
validation failure as `t('api/unexpected')`, but on the
total-below-minimum path the log statement interpolates the undeclared
variable `total`, so a ReferenceError — never the generic message —
reaches the caller, whatever the localization function is; the other
validation failures do surface the generic message and the
reduced-pledge failure its specific one.  The concrete run shows the
path is reachable. -/
theorem c9_total_path_reference_error :
    (∀ t : String → String,
      surfaced t .totalBelowMinimum = .referenceError "total" ∧
      surfaced t .invalidTemplateReference = .errMessage (t "api/unexpected") ∧
      surfaced t .crossPackageSelection = .errMessage (t "api/unexpected") ∧
      surfaced t .amountOutOfRange = .errMessage (t "api/unexpected") ∧
      surfaced t .missingReductionReason = .errMessage (t "api/unexpected") ∧
      surfaced t .identityMismatch = .errMessage (t "api/unexpected") ∧
      surfaced t .reducedPledgeAlreadyUsed =
        .errMessage (t "api/membership/reduced/alreadyHas")) ∧
    (submitPledge sha0 none "al" inpLow db1).1 = .failure .totalBelowMinimum :=
  ⟨fun _ => ⟨rfl, rfl, rfl, rfl, rfl, rfl, rfl⟩, rfl⟩

/-- C5: on every committed submission, the regular total is
`max(100, Σ amount_i × price_i)` over the templates, and the committed
Pledge row records the submitted total and
`donation = total − regularTotal`, exactly as computed before commit. -/
theorem c5_donation_recorded (sha : Nat → Int → String → Nat → String)
    (session : Option User) (fresh : String) (inp : PledgeInput) (db : DB)
    (pkos : List PackageOption) (pid uid : Nat) (sg al : String) (db2 : DB)
    (h1 : checkTemplates inp db = .ok pkos)
    (h : submitPledge sha session fresh inp db = (.success pid uid sg al, db2)) :
    regularTotalOf pkos inp.options = .ok (specRegularTotal pkos inp.options) ∧
    ∃ p : Pledge, p ∈ db2.pledges ∧ p.id = pid ∧ p.userId = uid ∧
      p.total = inp.total ∧
      p.donation = inp.total - specRegularTotal pkos inp.options ∧
      p.status = "DRAFT" := by
  unfold submitPledge at h
  rcases hsb : submitBody session fresh inp db with e | bo
  · rw [hsb] at h
    simp at h
  · rw [hsb] at h
    cases bo with
    | emailVerify => simp at h
    | committed pid2 uid2 total2 alias2 tx =>
      rw [Prod.mk.injEq] at h
      obtain ⟨hres, hdb⟩ := h
      injection hres with q1 q2 q3 q4
      subst q1
      subst q2
      subst hdb
      obtain ⟨pkos2, packageId2, hct, hco, rt, hrt, p, hmem, hpi, hpu,
        hptot, hpdon, hprea, hpst⟩ := submitBody_committed hsb
      rw [h1] at hct
      injection hct with hpk
      subst hpk
      have hreg := regularTotalOf_eq_spec hco
      rw [hrt] at hreg
      injection hreg with hrg
      exact ⟨regularTotalOf_eq_spec hco, p, hmem, hpi, hpu, hptot,
        by rw [hpdon, hrg], hpst⟩

/-- Witness for C5: the committed reduced submission of `inpReduced`
against `dbUnrewarded`; the committed row is pledge 10 with total 500
and donation −500. -/
theorem c5_donation_recorded_witness :
    checkTemplates inpReduced dbUnrewarded = .ok [tplU0] ∧
    submitPledge sha0 (some userA) "al" inpReduced dbUnrewarded =
      (.success 10 2 "" "al", (⟨[tplU0], [userA],
        [oldPledge, ⟨10, 2, 1, 500, -500, some "student", "DRAFT"⟩],
        [oldPledgeOption, ⟨11, 10, 1, 1, 1000⟩], [], [⟨5⟩], 12⟩ : DB)) ∧
    (regularTotalOf [tplU0] inpReduced.options =
        .ok (specRegularTotal [tplU0] inpReduced.options) ∧
      ∃ p : Pledge, p ∈ (⟨[tplU0], [userA],
          [oldPledge, ⟨10, 2, 1, 500, -500, some "student", "DRAFT"⟩],
          [oldPledgeOption, ⟨11, 10, 1, 1, 1000⟩], [], [⟨5⟩], 12⟩ : DB).pledges ∧
        p.id = 10 ∧ p.userId = 2 ∧ p.total = inpReduced.total ∧
        p.donation = inpReduced.total - specRegularTotal [tplU0] inpReduced.options ∧
        p.status = "DRAFT") :=
  ⟨rfl, rfl,
    c5_donation_recorded sha0 (some userA) "al" inpReduced dbUnrewarded
      [tplU0] 10 2 "" "al" _ rfl rfl⟩

/-- C6: for a donation-negative submission by a resolved acting user
with at least one existing pledge: if some reward is reachable through
that user's pledges → pledgeOptions → packageOptions → rewardIds, the
submission fails with ReducedPledgeAlreadyUsed (rolled back, database
unchanged); if no reward is reachable, the guard passes; and the guard
passes unconditionally whenever the donation is not negative. -/
theorem c6_reduced_pledge_guard (session : Option User) (fresh : String)
    (inp : PledgeInput) (db : DB) (pkos : List PackageOption) (packageId : Nat)
    (u : User) (alias2 : Option String) (tx : DB) (user2 : User) (tx2 : DB)
    (h1 : checkTemplates inp db = .ok pkos)
    (h2 : getPackageId pkos = .ok packageId)
    (h3 : checkOptions packageId pkos inp.options = .ok ())
    (h4 : ¬ inp.total < specMinTotal pkos inp.options)
    (h5 : ¬ (inp.total - specRegularTotal pkos inp.options < 0 ∧
      reasonFalsy inp.reason = true))
    (h6 : resolveUser session inp db = .ok (.resolved u alias2 tx))
    (h7 : syncUserNames inp u tx = .ok (user2, tx2))
    (hneg : inp.total - specRegularTotal pkos inp.options < 0)
    (hhas : (tx2.pledges.filter (fun p => p.userId == user2.id)).length ≠ 0) :
    (userRewards user2.id tx2 db ≠ [] →
      ∀ sha, submitPledge sha session fresh inp db =
        (.failure .reducedPledgeAlreadyUsed, db)) ∧
    (userRewards user2.id tx2 db = [] →
      reducedGuard (inp.total - specRegularTotal pkos inp.options)
        user2.id tx2 db = .ok ()) ∧
    (∀ (d : Int) (uid : Nat) (tx3 db3 : DB), ¬ d < 0 →
      reducedGuard d uid tx3 db3 = .ok ()) := by
  refine ⟨?_, ?_, ?_⟩
  · intro hrw sha
    have hlen : (userRewards user2.id tx2 db).length ≠ 0 := by
      intro h0
      exact hrw (List.length_eq_zero.mp h0)
    have hg : reducedGuard (inp.total - specRegularTotal pkos inp.options)
        user2.id tx2 db = .error .reducedPledgeAlreadyUsed := by
      unfold reducedGuard
      rw [if_pos ⟨hneg, hhas⟩, if_pos hlen]
    have hb : submitBody session fresh inp db =
        .error .reducedPledgeAlreadyUsed := by
      unfold submitBody
      rw [h1]
      dsimp only
      rw [h2]
      dsimp only
      rw [h3]
      dsimp only
      rw [minTotalOf_eq_spec h3]
      dsimp only
      rw [if_neg h4]
      unfold afterTotal
      rw [regularTotalOf_eq_spec h3]
      dsimp only
      rw [if_neg h5]
      rw [h6]
      dsimp only
      rw [h7]
      dsimp only
      rw [hg]
    unfold submitPledge
    rw [hb]
  · intro hrw
    unfold reducedGuard
    rw [if_pos ⟨hneg, hhas⟩, if_neg (by simp [hrw])]
  · intro d uid tx3 db3 hd
    unfold reducedGuard
    rw [if_neg (fun hc => hd hc.1)]

/-- Witness for C6: `userA` already redeemed a reward-bearing pledge in
`dbRewarded` and submits the reduced `inpReduced`; the run fails with
ReducedPledgeAlreadyUsed. -/
theorem c6_reduced_pledge_guard_witness :
    inpReduced.total - specRegularTotal [tplU] inpReduced.options < 0 ∧
    (dbRewarded.pledges.filter (fun p => p.userId == userA.id)).length ≠ 0 ∧
    userRewards userA.id dbRewarded dbRewarded ≠ [] ∧
    submitPledge sha0 (some userA) "al" inpReduced dbRewarded =
      (.failure .reducedPledgeAlreadyUsed, dbRewarded) := by
  refine ⟨by decide, by decide, by decide, ?_⟩
  exact (c6_reduced_pledge_guard (some userA) "al" inpReduced dbRewarded
    [tplU] 1 userA none dbRewarded userA dbRewarded
    rfl rfl rfl (by decide) (by decide) rfl rfl (by decide) (by decide)).1
    (by decide) sha0

/-- C7: an anonymous submission (no session identity) whose email
belongs to an existing user who already has at least one pledge
short-circuits: the run returns the emailVerify outcome, nothing is
committed, and the visible database is exactly the one from before (no
User, Pledge or PledgeOption write). -/
theorem c7_email_verify_short_circuit
    (sha : Nat → Int → String → Nat → String) (fresh : String)
    (inp : PledgeInput) (db : DB) (pkos : List PackageOption)
    (packageId : Nat) (u : User)
    (h1 : checkTemplates inp db = .ok pkos)
    (h2 : getPackageId pkos = .ok packageId)
    (h3 : checkOptions packageId pkos inp.options = .ok ())
    (h4 : ¬ inp.total < specMinTotal pkos inp.options)
    (h5 : ¬ (inp.total - specRegularTotal pkos inp.options < 0 ∧
      reasonFalsy inp.reason = true))
    (hu : db.users.find? (fun v => v.email == inp.user.email) = some u)
    (hp : (db.pledges.filter (fun p => p.userId == u.id)).length ≠ 0) :
    submitPledge sha none fresh inp db = (.emailVerify, db) := by
  have hru : resolveUser none inp db = .ok .emailVerify := by
    unfold resolveUser
    rw [hu]
    dsimp only
    rw [if_pos hp]
  have hb : submitBody none fresh inp db = .ok .emailVerify := by
    unfold submitBody
    rw [h1]
    dsimp only
    rw [h2]
    dsimp only
    rw [h3]
    dsimp only
    rw [minTotalOf_eq_spec h3]
    dsimp only
    rw [if_neg h4]
    unfold afterTotal
    rw [regularTotalOf_eq_spec h3]
    dsimp only
    rw [if_neg h5]
    rw [hru]
  unfold submitPledge
  rw [hb]

/-- Witness for C7: `inpFull` submitted anonymously against `dbEmail`,
where `userA` owns the submitted email and already has a pledge. -/
theorem c7_email_verify_short_circuit_witness :
    dbEmail.users.find? (fun v => v.email == inpFull.user.email) = some userA ∧
    (dbEmail.pledges.filter (fun p => p.userId == userA.id)).length ≠ 0 ∧
    submitPledge sha0 none "al" inpFull dbEmail = (.emailVerify, dbEmail) :=
  ⟨rfl, by decide,
    c7_email_verify_short_circuit sha0 "al" inpFull dbEmail [tplA] 1 userA
      rfl rfl rfl (by decide) (by decide) rfl (by decide)⟩

/-- C10: a submission with an empty options list always fails — the
`packageOptions[0].packageId` dereference raises a TypeError, the
transaction rolls back, and no Pledge or PledgeOption row survives. -/
theorem c10_empty_options_fail (sha : Nat → Int → String → Nat → String)
    (session : Option User) (fresh : String) (inp : PledgeInput) (db : DB)
    (hopts : inp.options = []) :
    submitPledge sha session fresh inp db =
      (.failure (.typeError "packageId"), db) := by
  have hct : checkTemplates inp db = .ok [] := by
    unfold checkTemplates
    dsimp only
    rw [hopts]
    simp
  have hb : submitBody session fresh inp db = .error (.typeError "packageId") := by
    unfold submitBody
    rw [hct]
    rfl
  unfold submitPledge
  rw [hb]

/-- Witness for C10: the concrete empty-options submission. -/
theorem c10_empty_options_fail_witness :
    inpEmpty.options = [] ∧
    submitPledge sha0 none "x" inpEmpty db1 =
      (.failure (.typeError "packageId"), db1) :=
  ⟨rfl, c10_empty_options_fail sha0 none "x" inpEmpty db1 rfl⟩

end Crowdfunding
